import Mathlib

/-!
Verification of the FireProx gateway manager (`fire.py`) against its
natural-language specification.

The Python source is shallowly embedded as follows:

* Python `str.replace` / substring counting are modelled by the scanners
  `replL` / `countL` over `List Char` (left-to-right, non-overlapping,
  earliest match first — exactly `str.replace` semantics for the non-empty
  patterns the program uses).
* The boto3 `apigateway` client is an explicit record of response-valued
  fields (`Client`); Python exceptions are the explicit error type `PyErr`
  (`clientError` for `botocore` ClientError, `otherError` for any other
  exception, `systemExit` for `sys.exit`).  A computation that prints and
  may raise is a pair `Res α = List String × Except PyErr α` of printed
  lines and outcome; `FireProx.error` (print help, then `sys.exit(msg)`)
  is `errRes`.
* `tldextract.extract(url).domain` and `datetime.now()` are external
  collaborators, passed as oracle parameters `domainOf` / `versionDate`.
* The Swagger template literal from the source is `templateRaw`; it is
  written as the concatenation `sconcat tChunks` of consecutive slices of
  the source's single template literal (the slices concatenate, in order,
  to exactly the source string; the split only keeps concrete evaluation
  inside the kernel's reduction depth).
-/

set_option maxRecDepth 8000

/-- Scanner implementing Python `str.replace` over char lists: `skip`
counts characters still to be consumed by the most recent match. -/
def replL (pat rep : List Char) : Nat → List Char → List Char
  | _, [] => []
  | skip + 1, _ :: rest => replL pat rep skip rest
  | 0, c :: rest =>
    if pat.isPrefixOf (c :: rest) then rep ++ replL pat rep (pat.length - 1) rest
    else c :: replL pat rep 0 rest

/-- Scanner counting non-overlapping occurrences, mirroring `replL`. -/
def countL (pat : List Char) : Nat → List Char → Nat
  | _, [] => 0
  | skip + 1, _ :: rest => countL pat skip rest
  | 0, c :: rest =>
    if pat.isPrefixOf (c :: rest) then 1 + countL pat (pat.length - 1) rest
    else countL pat 0 rest

/-- Python `s.replace(pat, rep)` (for the non-empty patterns used by the program). -/
def replaceAll (s pat rep : String) : String := ⟨replL pat.data rep.data 0 s.data⟩

/-- Number of non-overlapping occurrences of `pat` in `s`. -/
def countSub (s pat : String) : Nat := countL pat.data 0 s.data

/-- Concatenation of a list of char lists. -/
def joinL : List (List Char) → List Char
  | [] => []
  | x :: xs => x ++ joinL xs

/-- Sum of a list of naturals. -/
def sumN : List Nat → Nat
  | [] => 0
  | n :: ns => n + sumN ns

/-- Chunk boundaries are safe for `pat`: no occurrence of `pat` starts in
one chunk and ends in a later one. -/
def bOkCore (pat : List Char) : List (List Char) → Prop
  | [] => True
  | c :: rest =>
    (∀ k, k < c.length → c.length < pat.length + k →
      pat.isPrefixOf (c.drop k ++ joinL rest) = false) ∧ bOkCore pat rest

instance bOkCoreDec (pat : List Char) : (cs : List (List Char)) → Decidable (bOkCore pat cs)
  | [] => .isTrue trivial
  | _c :: rest =>
    haveI : Decidable (bOkCore pat rest) := bOkCoreDec pat rest
    inferInstanceAs (Decidable (_ ∧ _))

/-- Concatenation of a list of strings. -/
def sconcat : List String → String
  | [] => ""
  | s :: ss => s ++ sconcat ss

/-- Python `url[-1] == '/'` followed by `url = url[:-1]`: strip one
trailing slash; `none` models the IndexError raised on an empty string. -/
def stripUrlL (l : List Char) : Option (List Char) :=
  match l.getLast? with
  | none => none
  | some c => if c = '/' then some l.dropLast else some l

/-- String-level wrapper for `stripUrlL`; this is the trailing-slash strip
shared by `get_template` (line 97 of the source) and `update_api` (line 235). -/
def stripUrl (u : String) : Option String := (stripUrlL u.data).map String.mk

/-- Python truthiness of an optional-string CLI argument (`None` and `''` are falsy). -/
def truthy : Option String → Bool
  | none => false
  | some s => !s.data.isEmpty

/-- Python str() of an optional string (f-string interpolation of a possibly-None value). -/
def pyStr : Option String → String
  | none => "None"
  | some s => s

/-- Python exception kinds relevant to the program: `botocore` ClientError
(caught by the `except ClientError` handlers), any other exception, and
the SystemExit raised by `sys.exit`. -/
inductive PyErr where
  | clientError (msg : String)
  | otherError (msg : String)
  | systemExit (msg : String)
deriving DecidableEq

deriving instance DecidableEq for Except

/-- Result of running a piece of the program: lines printed so far and
either a value or an uncaught exception. -/
abbrev Res (α : Type) := List String × Except PyErr α

/-- `FireProx.error`: print the CLI help text, then `sys.exit(msg)`. -/
def errRes {α : Type} (help msg : String) : Res α :=
  ([help], Except.error (PyErr.systemExit msg))

/-- An item of the provider's `get_rest_apis` listing. -/
structure ApiItem where
  createdDate : String
  id : String
  name : String
deriving DecidableEq

/-- An item of the provider's `get_resources` listing. -/
structure AwsResource where
  id : String
  path : String
deriving DecidableEq

/-- The boto3 `apigateway` client, as the responses it returns:
`getRestApis`, `getResources apiId`, `getIntegrationUri apiId resourceId`
(the `uri` field of `get_integration`; the resource id may be `None`),
`updateIntegration apiId resourceId newUri` (the `uri` field of the patch
response) and `deleteRestApi apiId`. -/
structure Client where
  getRestApis : Except PyErr (List ApiItem)
  getResources : String → Except PyErr (List AwsResource)
  getIntegrationUri : String → Option String → Except PyErr String
  updateIntegration : String → String → String → Except PyErr String
  deleteRestApi : String → Except PyErr Unit

/-- `FireProx.get_resource` (source lines 318-331): id of the first
resource whose path is the wildcard `/{proxy+}`, or `None`. -/
def get_resource (help : String) (client : Client) (apiId : Option String) :
    Res (Option String) :=
  if truthy apiId = false then errRes help "Please provide a valid API ID"
  else
    match client.getResources (pyStr apiId) with
    | Except.error (PyErr.clientError m) => errRes help m
    | Except.error e => ([], Except.error e)
    | Except.ok items =>
      ([], Except.ok ((items.find? (fun it => it.path = "/\x7bproxy+\x7d")).map AwsResource.id))

/-- `FireProx.get_integration` (source lines 333-345). -/
def get_integration (help : String) (client : Client) (apiId : Option String) :
    Res String :=
  if truthy apiId = false then errRes help "Please provide a valid API ID"
  else
    match get_resource help client apiId with
    | (p, Except.error e) => (p, Except.error e)
    | (p, Except.ok rid) =>
      match client.getIntegrationUri (pyStr apiId) rid with
      | Except.error (PyErr.clientError m) => (p ++ [help], Except.error (PyErr.systemExit m))
      | Except.error e => (p, Except.error e)
      | Except.ok uri => (p, Except.ok uri)

/-- The line printed per listed gateway (source line 289). -/
def fmtLine (region : String) (item : ApiItem) (uri : String) : String :=
  "[" ++ item.createdDate ++ "] (" ++ item.id ++ ") " ++ item.name ++
    ": https://" ++ item.id ++ ".execute-api." ++ region ++
    ".amazonaws.com/fireprox/ => " ++ replaceAll uri "\x7bproxy\x7d" ""

/-- Body of the per-item loop of `list_api` (source lines 281-291): the
bare `except: pass` catches every exception — including the SystemExit
raised by `self.error` — keeping whatever was printed and moving on. -/
def itemOut (help region : String) (client : Client) (deletedApiId : Option String)
    (item : ApiItem) : List String :=
  match get_integration help client (some item.id) with
  | (p, Except.error _) => p
  | (p, Except.ok uri) =>
    if deletedApiId = some item.id then p
    else p ++ [fmtLine region item uri]

/-- Sequential concatenation of the per-item printed output. -/
def listOut (f : ApiItem → List String) : List ApiItem → List String
  | [] => []
  | i :: rest => f i ++ listOut f rest

/-- `FireProx.list_api` (source lines 276-293). -/
def list_api (help region : String) (client : Client) (deletedApiId : Option String) :
    Res (List ApiItem) :=
  match client.getRestApis with
  | Except.error (PyErr.clientError m) => errRes help m
  | Except.error e => ([], Except.error e)
  | Except.ok items =>
    (listOut (itemOut help region client deletedApiId) items, Except.ok items)

/-- `FireProx.delete_api` (source lines 260-274): re-list (passing the id
so its line is suppressed), delete on the first listed item with that id,
else return `False`. -/
def delete_api (help region : String) (client : Client) (apiId : Option String) :
    Res Bool :=
  if truthy apiId = false then errRes help "Please provide a valid API ID"
  else
    match list_api help region client apiId with
    | (p, Except.error e) => (p, Except.error e)
    | (p, Except.ok items) =>
      match items.find? (fun item => item.id = pyStr apiId) with
      | some _ =>
        match client.deleteRestApi (pyStr apiId) with
        | Except.error (PyErr.clientError m) => (p ++ [help], Except.error (PyErr.systemExit m))
        | Except.error e => (p, Except.error e)
        | Except.ok _ => (p, Except.ok true)
      | none => (p, Except.ok false)

/-- `FireProx.update_api` (source lines 231-258).  Note the source guard
is `if not any([api_id, url])` — it fires only when both arguments are
missing; with an api id but no url, `url[-1]` raises an uncaught
TypeError, and with an empty-string url it raises an IndexError.  The
`if resource_id:` test on source line 239 is Python truthiness: both
`None` and an empty-string resource id take the
`Unable to update, no valid resource` error path (`truthy rid` here). -/
def update_api (help : String) (client : Client) (apiId url : Option String) :
    Res Bool :=
  if truthy apiId || truthy url then
    match url with
    | none => ([], Except.error (PyErr.otherError "TypeError: NoneType is not subscriptable"))
    | some u =>
      match stripUrl u with
      | none => ([], Except.error (PyErr.otherError "IndexError: string index out of range"))
      | some u2 =>
        match get_resource help client apiId with
        | (p, Except.error e) => (p, Except.error e)
        | (p, Except.ok rid) =>
          if truthy rid then
            let found := "Found resource " ++ pyStr rid ++ " for " ++ pyStr apiId ++ "!"
            match client.updateIntegration (pyStr apiId) (pyStr rid) (u2 ++ "/\x7bproxy\x7d") with
            | Except.error (PyErr.clientError m) =>
              (p ++ [found] ++ [help], Except.error (PyErr.systemExit m))
            | Except.error e => (p ++ [found], Except.error e)
            | Except.ok uri => (p ++ [found], Except.ok (replaceAll uri "/\x7bproxy\x7d" "" == u2))
          else
            (p ++ [help],
              Except.error (PyErr.systemExit ("Unable to update, no valid resource for " ++ pyStr apiId)))
  else errRes help "Please provide a valid API ID and URL end-point"

/-- Outcome of `FireProx.load_creds`: try instance-profile credentials,
build a boto3 session from the given keyword dictionary, or fail with a
usage error. -/
inductive CredResolution where
  | instanceProfile : CredResolution
  | sessionWith : List (String × String) → CredResolution
  | usageError : String → CredResolution
deriving DecidableEq

/-- `FireProx.load_creds` (source lines 55-88).  The source's early
`return self._try_instance_profile()` is the `else` branch here.  Note
the misspelled dictionary key `aws_sessoin_token` on source line 72. -/
def load_creds (profileName accessKey secretKey sessionToken : Option String)
    (region : String) : CredResolution :=
  if truthy accessKey || truthy secretKey || truthy profileName then
    if truthy profileName then
      CredResolution.sessionWith [("profile_name", pyStr profileName), ("region_name", region)]
    else if truthy accessKey && truthy secretKey then
      CredResolution.sessionWith
        ([("aws_access_key_id", pyStr accessKey), ("aws_secret_access_key", pyStr secretKey)] ++
          (if truthy sessionToken then [("aws_sessoin_token", pyStr sessionToken)] else []) ++
          [("region_name", region)])
    else
      CredResolution.usageError "Please configure a profile or provice access keys"
  else
    CredResolution.instanceProfile

/-- The title computed inside `get_template` (source lines 100-102):
`'fireprox_{}'.format(tldextract.extract(url).domain)`, with the
tldextract collaborator as the oracle `domainOf`. -/
def fireproxTitle (domainOf : String → String) (url : String) : String :=
  "fireprox_" ++ domainOf url

/-- The title `get_template` derives for a raw (unstripped) URL. -/
def titleOf (domainOf : String → String) (u : String) : Option String :=
  (stripUrl u).map (fireproxTitle domainOf)
/-- Consecutive slices (380 characters each, last one longer) of the Swagger template literal of source lines 104-197; they concatenate, in order, to exactly that literal. -/
def tChunks : List String := [
  "\n        \x7b\n          \"swagger\": \"2.0\",\n          \"info\": \x7b\n            \"version\": \"\x7b\x7bversion_date\x7d\x7d\",\n            \"title\": \"\x7b\x7btitle\x7d\x7d\"\n          \x7d,\n          \"basePath\": \"/\",\n          \"schemes\": [\n            \"https\"\n          ],\n          \"paths\": \x7b\n            \"/\": \x7b\n              \"get\": \x7b\n                \"parameters\": [\n                  \x7b\n                    \"name\": \"proxy",
  "\",\n                    \"in\": \"path\",\n                    \"required\": true,\n                    \"type\": \"string\"\n                  \x7d,\n                  \x7b\n                    \"name\": \"X-My-X-Forwarded-For\",\n                    \"in\": \"header\",\n                    \"required\": false,\n                    \"type\": \"string\"\n                  \x7d\n                ],\n                \"respons",
  "es\": \x7b\x7d,\n                \"x-amazon-apigateway-integration\": \x7b\n                  \"uri\": \"\x7b\x7burl\x7d\x7d/\",\n                  \"responses\": \x7b\n                    \"default\": \x7b\n                      \"statusCode\": \"200\"\n                    \x7d\n                  \x7d,\n                  \"requestParameters\": \x7b\n                    \"integration.request.path.proxy\": \"method.request.path.proxy\",\n      ",
  "              \"integration.request.header.X-Forwarded-For\": \"method.request.header.X-My-X-Forwarded-For\"\n                  \x7d,\n                  \"passthroughBehavior\": \"when_no_match\",\n                  \"httpMethod\": \"ANY\",\n                  \"cacheNamespace\": \"irx7tm\",\n                  \"cacheKeyParameters\": [\n                    \"method.request.path.proxy\"\n                  ],\n",
  "                  \"type\": \"http_proxy\"\n                \x7d\n              \x7d\n            \x7d,\n            \"/\x7bproxy+\x7d\": \x7b\n              \"x-amazon-apigateway-any-method\": \x7b\n                \"produces\": [\n                  \"application/json\"\n                ],\n                \"parameters\": [\n                  \x7b\n                    \"name\": \"proxy\",\n                    \"in\": \"path\",\n      ",
  "              \"required\": true,\n                    \"type\": \"string\"\n                  \x7d,\n                  \x7b\n                    \"name\": \"X-My-X-Forwarded-For\",\n                    \"in\": \"header\",\n                    \"required\": false,\n                    \"type\": \"string\"\n                  \x7d\n                ],\n                \"responses\": \x7b\x7d,\n                \"x-amazon-apigatew",
  "ay-integration\": \x7b\n                  \"uri\": \"\x7b\x7burl\x7d\x7d/\x7bproxy\x7d\",\n                  \"responses\": \x7b\n                    \"default\": \x7b\n                      \"statusCode\": \"200\"\n                    \x7d\n                  \x7d,\n                  \"requestParameters\": \x7b\n                    \"integration.request.path.proxy\": \"method.request.path.proxy\",\n                    \"integration.request.h",
  "eader.X-Forwarded-For\": \"method.request.header.X-My-X-Forwarded-For\"\n                  \x7d,\n                  \"passthroughBehavior\": \"when_no_match\",\n                  \"httpMethod\": \"ANY\",\n                  \"cacheNamespace\": \"irx7tm\",\n                  \"cacheKeyParameters\": [\n                    \"method.request.path.proxy\"\n                  ],\n                  \"type\": \"http_proxy\"\n                \x7d\n              \x7d\n            \x7d\n          \x7d\n        \x7d\n        "]

/-- The Swagger template literal (source lines 104-197). -/
def templateRaw : String := sconcat tChunks

/-- Char-list view of the template chunks. -/
def tChunksData : List (List Char) := tChunks.map String.data

/-- The url placeholder of the template. -/
def urlPh : String := "\x7b\x7burl\x7d\x7d"

/-- The title placeholder of the template. -/
def titlePh : String := "\x7b\x7btitle\x7d\x7d"

/-- The version-date placeholder of the template. -/
def verPh : String := "\x7b\x7bversion_date\x7d\x7d"

/-- The root route integration-uri line of the template. -/
def rootUriSite : String := "\"uri\": \"\x7b\x7burl\x7d\x7d/\""

/-- The wildcard route integration-uri line of the template. -/
def wildUriSite : String := "\"uri\": \"\x7b\x7burl\x7d\x7d/\x7bproxy\x7d\""

/-- `FireProx.get_template` (source lines 95-202): strip a trailing slash
(IndexError on the empty string, modelled as `none`), derive the title,
then substitute url, title and version date into the template, in that
order.  `str.encode` at source line 202 is the UTF-8 encoding of the
returned string and is not modelled separately. -/
def get_template (domainOf : String → String) (versionDate : String) (url0 : String) :
    Option String :=
  match stripUrl url0 with
  | none => none
  | some url =>
    some (replaceAll (replaceAll (replaceAll templateRaw urlPh url)
      titlePh (fireproxTitle domainOf url)) verPh versionDate)

/-- Images of `tChunks` after substituting the stripped URL `https://example.com` for the url placeholder. -/
def eChunks1 : List String := [
  "\n        \x7b\n          \"swagger\": \"2.0\",\n          \"info\": \x7b\n            \"version\": \"\x7b\x7bversion_date\x7d\x7d\",\n            \"title\": \"\x7b\x7btitle\x7d\x7d\"\n          \x7d,\n          \"basePath\": \"/\",\n          \"schemes\": [\n            \"https\"\n          ],\n          \"paths\": \x7b\n            \"/\": \x7b\n              \"get\": \x7b\n                \"parameters\": [\n                  \x7b\n                    \"name\": \"proxy",
  "\",\n                    \"in\": \"path\",\n                    \"required\": true,\n                    \"type\": \"string\"\n                  \x7d,\n                  \x7b\n                    \"name\": \"X-My-X-Forwarded-For\",\n                    \"in\": \"header\",\n                    \"required\": false,\n                    \"type\": \"string\"\n                  \x7d\n                ],\n                \"respons",
  "es\": \x7b\x7d,\n                \"x-amazon-apigateway-integration\": \x7b\n                  \"uri\": \"https://example.com/\",\n                  \"responses\": \x7b\n                    \"default\": \x7b\n                      \"statusCode\": \"200\"\n                    \x7d\n                  \x7d,\n                  \"requestParameters\": \x7b\n                    \"integration.request.path.proxy\": \"method.request.path.proxy\",\n      ",
  "              \"integration.request.header.X-Forwarded-For\": \"method.request.header.X-My-X-Forwarded-For\"\n                  \x7d,\n                  \"passthroughBehavior\": \"when_no_match\",\n                  \"httpMethod\": \"ANY\",\n                  \"cacheNamespace\": \"irx7tm\",\n                  \"cacheKeyParameters\": [\n                    \"method.request.path.proxy\"\n                  ],\n",
  "                  \"type\": \"http_proxy\"\n                \x7d\n              \x7d\n            \x7d,\n            \"/\x7bproxy+\x7d\": \x7b\n              \"x-amazon-apigateway-any-method\": \x7b\n                \"produces\": [\n                  \"application/json\"\n                ],\n                \"parameters\": [\n                  \x7b\n                    \"name\": \"proxy\",\n                    \"in\": \"path\",\n      ",
  "              \"required\": true,\n                    \"type\": \"string\"\n                  \x7d,\n                  \x7b\n                    \"name\": \"X-My-X-Forwarded-For\",\n                    \"in\": \"header\",\n                    \"required\": false,\n                    \"type\": \"string\"\n                  \x7d\n                ],\n                \"responses\": \x7b\x7d,\n                \"x-amazon-apigatew",
  "ay-integration\": \x7b\n                  \"uri\": \"https://example.com/\x7bproxy\x7d\",\n                  \"responses\": \x7b\n                    \"default\": \x7b\n                      \"statusCode\": \"200\"\n                    \x7d\n                  \x7d,\n                  \"requestParameters\": \x7b\n                    \"integration.request.path.proxy\": \"method.request.path.proxy\",\n                    \"integration.request.h",
  "eader.X-Forwarded-For\": \"method.request.header.X-My-X-Forwarded-For\"\n                  \x7d,\n                  \"passthroughBehavior\": \"when_no_match\",\n                  \"httpMethod\": \"ANY\",\n                  \"cacheNamespace\": \"irx7tm\",\n                  \"cacheKeyParameters\": [\n                    \"method.request.path.proxy\"\n                  ],\n                  \"type\": \"http_proxy\"\n                \x7d\n              \x7d\n            \x7d\n          \x7d\n        \x7d\n        "]

/-- Images of `eChunks1` after substituting the title `fireprox_example`. -/
def eChunks2 : List String := [
  "\n        \x7b\n          \"swagger\": \"2.0\",\n          \"info\": \x7b\n            \"version\": \"\x7b\x7bversion_date\x7d\x7d\",\n            \"title\": \"fireprox_example\"\n          \x7d,\n          \"basePath\": \"/\",\n          \"schemes\": [\n            \"https\"\n          ],\n          \"paths\": \x7b\n            \"/\": \x7b\n              \"get\": \x7b\n                \"parameters\": [\n                  \x7b\n                    \"name\": \"proxy",
  "\",\n                    \"in\": \"path\",\n                    \"required\": true,\n                    \"type\": \"string\"\n                  \x7d,\n                  \x7b\n                    \"name\": \"X-My-X-Forwarded-For\",\n                    \"in\": \"header\",\n                    \"required\": false,\n                    \"type\": \"string\"\n                  \x7d\n                ],\n                \"respons",
  "es\": \x7b\x7d,\n                \"x-amazon-apigateway-integration\": \x7b\n                  \"uri\": \"https://example.com/\",\n                  \"responses\": \x7b\n                    \"default\": \x7b\n                      \"statusCode\": \"200\"\n                    \x7d\n                  \x7d,\n                  \"requestParameters\": \x7b\n                    \"integration.request.path.proxy\": \"method.request.path.proxy\",\n      ",
  "              \"integration.request.header.X-Forwarded-For\": \"method.request.header.X-My-X-Forwarded-For\"\n                  \x7d,\n                  \"passthroughBehavior\": \"when_no_match\",\n                  \"httpMethod\": \"ANY\",\n                  \"cacheNamespace\": \"irx7tm\",\n                  \"cacheKeyParameters\": [\n                    \"method.request.path.proxy\"\n                  ],\n",
  "                  \"type\": \"http_proxy\"\n                \x7d\n              \x7d\n            \x7d,\n            \"/\x7bproxy+\x7d\": \x7b\n              \"x-amazon-apigateway-any-method\": \x7b\n                \"produces\": [\n                  \"application/json\"\n                ],\n                \"parameters\": [\n                  \x7b\n                    \"name\": \"proxy\",\n                    \"in\": \"path\",\n      ",
  "              \"required\": true,\n                    \"type\": \"string\"\n                  \x7d,\n                  \x7b\n                    \"name\": \"X-My-X-Forwarded-For\",\n                    \"in\": \"header\",\n                    \"required\": false,\n                    \"type\": \"string\"\n                  \x7d\n                ],\n                \"responses\": \x7b\x7d,\n                \"x-amazon-apigatew",
  "ay-integration\": \x7b\n                  \"uri\": \"https://example.com/\x7bproxy\x7d\",\n                  \"responses\": \x7b\n                    \"default\": \x7b\n                      \"statusCode\": \"200\"\n                    \x7d\n                  \x7d,\n                  \"requestParameters\": \x7b\n                    \"integration.request.path.proxy\": \"method.request.path.proxy\",\n                    \"integration.request.h",
  "eader.X-Forwarded-For\": \"method.request.header.X-My-X-Forwarded-For\"\n                  \x7d,\n                  \"passthroughBehavior\": \"when_no_match\",\n                  \"httpMethod\": \"ANY\",\n                  \"cacheNamespace\": \"irx7tm\",\n                  \"cacheKeyParameters\": [\n                    \"method.request.path.proxy\"\n                  ],\n                  \"type\": \"http_proxy\"\n                \x7d\n              \x7d\n            \x7d\n          \x7d\n        \x7d\n        "]

/-- Images of `eChunks2` after substituting the version date `2020-01-01T00:00:00Z`. -/
def eChunks3 : List String := [
  "\n        \x7b\n          \"swagger\": \"2.0\",\n          \"info\": \x7b\n            \"version\": \"2020-01-01T00:00:00Z\",\n            \"title\": \"fireprox_example\"\n          \x7d,\n          \"basePath\": \"/\",\n          \"schemes\": [\n            \"https\"\n          ],\n          \"paths\": \x7b\n            \"/\": \x7b\n              \"get\": \x7b\n                \"parameters\": [\n                  \x7b\n                    \"name\": \"proxy",
  "\",\n                    \"in\": \"path\",\n                    \"required\": true,\n                    \"type\": \"string\"\n                  \x7d,\n                  \x7b\n                    \"name\": \"X-My-X-Forwarded-For\",\n                    \"in\": \"header\",\n                    \"required\": false,\n                    \"type\": \"string\"\n                  \x7d\n                ],\n                \"respons",
  "es\": \x7b\x7d,\n                \"x-amazon-apigateway-integration\": \x7b\n                  \"uri\": \"https://example.com/\",\n                  \"responses\": \x7b\n                    \"default\": \x7b\n                      \"statusCode\": \"200\"\n                    \x7d\n                  \x7d,\n                  \"requestParameters\": \x7b\n                    \"integration.request.path.proxy\": \"method.request.path.proxy\",\n      ",
  "              \"integration.request.header.X-Forwarded-For\": \"method.request.header.X-My-X-Forwarded-For\"\n                  \x7d,\n                  \"passthroughBehavior\": \"when_no_match\",\n                  \"httpMethod\": \"ANY\",\n                  \"cacheNamespace\": \"irx7tm\",\n                  \"cacheKeyParameters\": [\n                    \"method.request.path.proxy\"\n                  ],\n",
  "                  \"type\": \"http_proxy\"\n                \x7d\n              \x7d\n            \x7d,\n            \"/\x7bproxy+\x7d\": \x7b\n              \"x-amazon-apigateway-any-method\": \x7b\n                \"produces\": [\n                  \"application/json\"\n                ],\n                \"parameters\": [\n                  \x7b\n                    \"name\": \"proxy\",\n                    \"in\": \"path\",\n      ",
  "              \"required\": true,\n                    \"type\": \"string\"\n                  \x7d,\n                  \x7b\n                    \"name\": \"X-My-X-Forwarded-For\",\n                    \"in\": \"header\",\n                    \"required\": false,\n                    \"type\": \"string\"\n                  \x7d\n                ],\n                \"responses\": \x7b\x7d,\n                \"x-amazon-apigatew",
  "ay-integration\": \x7b\n                  \"uri\": \"https://example.com/\x7bproxy\x7d\",\n                  \"responses\": \x7b\n                    \"default\": \x7b\n                      \"statusCode\": \"200\"\n                    \x7d\n                  \x7d,\n                  \"requestParameters\": \x7b\n                    \"integration.request.path.proxy\": \"method.request.path.proxy\",\n                    \"integration.request.h",
  "eader.X-Forwarded-For\": \"method.request.header.X-My-X-Forwarded-For\"\n                  \x7d,\n                  \"passthroughBehavior\": \"when_no_match\",\n                  \"httpMethod\": \"ANY\",\n                  \"cacheNamespace\": \"irx7tm\",\n                  \"cacheKeyParameters\": [\n                    \"method.request.path.proxy\"\n                  ],\n                  \"type\": \"http_proxy\"\n                \x7d\n              \x7d\n            \x7d\n          \x7d\n        \x7d\n        "]

/-- Images of `tChunks` after substituting the degenerate stripped URL `s`. -/
def sChunks1 : List String := [
  "\n        \x7b\n          \"swagger\": \"2.0\",\n          \"info\": \x7b\n            \"version\": \"\x7b\x7bversion_date\x7d\x7d\",\n            \"title\": \"\x7b\x7btitle\x7d\x7d\"\n          \x7d,\n          \"basePath\": \"/\",\n          \"schemes\": [\n            \"https\"\n          ],\n          \"paths\": \x7b\n            \"/\": \x7b\n              \"get\": \x7b\n                \"parameters\": [\n                  \x7b\n                    \"name\": \"proxy",
  "\",\n                    \"in\": \"path\",\n                    \"required\": true,\n                    \"type\": \"string\"\n                  \x7d,\n                  \x7b\n                    \"name\": \"X-My-X-Forwarded-For\",\n                    \"in\": \"header\",\n                    \"required\": false,\n                    \"type\": \"string\"\n                  \x7d\n                ],\n                \"respons",
  "es\": \x7b\x7d,\n                \"x-amazon-apigateway-integration\": \x7b\n                  \"uri\": \"s/\",\n                  \"responses\": \x7b\n                    \"default\": \x7b\n                      \"statusCode\": \"200\"\n                    \x7d\n                  \x7d,\n                  \"requestParameters\": \x7b\n                    \"integration.request.path.proxy\": \"method.request.path.proxy\",\n      ",
  "              \"integration.request.header.X-Forwarded-For\": \"method.request.header.X-My-X-Forwarded-For\"\n                  \x7d,\n                  \"passthroughBehavior\": \"when_no_match\",\n                  \"httpMethod\": \"ANY\",\n                  \"cacheNamespace\": \"irx7tm\",\n                  \"cacheKeyParameters\": [\n                    \"method.request.path.proxy\"\n                  ],\n",
  "                  \"type\": \"http_proxy\"\n                \x7d\n              \x7d\n            \x7d,\n            \"/\x7bproxy+\x7d\": \x7b\n              \"x-amazon-apigateway-any-method\": \x7b\n                \"produces\": [\n                  \"application/json\"\n                ],\n                \"parameters\": [\n                  \x7b\n                    \"name\": \"proxy\",\n                    \"in\": \"path\",\n      ",
  "              \"required\": true,\n                    \"type\": \"string\"\n                  \x7d,\n                  \x7b\n                    \"name\": \"X-My-X-Forwarded-For\",\n                    \"in\": \"header\",\n                    \"required\": false,\n                    \"type\": \"string\"\n                  \x7d\n                ],\n                \"responses\": \x7b\x7d,\n                \"x-amazon-apigatew",
  "ay-integration\": \x7b\n                  \"uri\": \"s/\x7bproxy\x7d\",\n                  \"responses\": \x7b\n                    \"default\": \x7b\n                      \"statusCode\": \"200\"\n                    \x7d\n                  \x7d,\n                  \"requestParameters\": \x7b\n                    \"integration.request.path.proxy\": \"method.request.path.proxy\",\n                    \"integration.request.h",
  "eader.X-Forwarded-For\": \"method.request.header.X-My-X-Forwarded-For\"\n                  \x7d,\n                  \"passthroughBehavior\": \"when_no_match\",\n                  \"httpMethod\": \"ANY\",\n                  \"cacheNamespace\": \"irx7tm\",\n                  \"cacheKeyParameters\": [\n                    \"method.request.path.proxy\"\n                  ],\n                  \"type\": \"http_proxy\"\n                \x7d\n              \x7d\n            \x7d\n          \x7d\n        \x7d\n        "]

/-- Images of `sChunks1` after substituting the title `fireprox_x`. -/
def sChunks2 : List String := [
  "\n        \x7b\n          \"swagger\": \"2.0\",\n          \"info\": \x7b\n            \"version\": \"\x7b\x7bversion_date\x7d\x7d\",\n            \"title\": \"fireprox_x\"\n          \x7d,\n          \"basePath\": \"/\",\n          \"schemes\": [\n            \"https\"\n          ],\n          \"paths\": \x7b\n            \"/\": \x7b\n              \"get\": \x7b\n                \"parameters\": [\n                  \x7b\n                    \"name\": \"proxy",
  "\",\n                    \"in\": \"path\",\n                    \"required\": true,\n                    \"type\": \"string\"\n                  \x7d,\n                  \x7b\n                    \"name\": \"X-My-X-Forwarded-For\",\n                    \"in\": \"header\",\n                    \"required\": false,\n                    \"type\": \"string\"\n                  \x7d\n                ],\n                \"respons",
  "es\": \x7b\x7d,\n                \"x-amazon-apigateway-integration\": \x7b\n                  \"uri\": \"s/\",\n                  \"responses\": \x7b\n                    \"default\": \x7b\n                      \"statusCode\": \"200\"\n                    \x7d\n                  \x7d,\n                  \"requestParameters\": \x7b\n                    \"integration.request.path.proxy\": \"method.request.path.proxy\",\n      ",
  "              \"integration.request.header.X-Forwarded-For\": \"method.request.header.X-My-X-Forwarded-For\"\n                  \x7d,\n                  \"passthroughBehavior\": \"when_no_match\",\n                  \"httpMethod\": \"ANY\",\n                  \"cacheNamespace\": \"irx7tm\",\n                  \"cacheKeyParameters\": [\n                    \"method.request.path.proxy\"\n                  ],\n",
  "                  \"type\": \"http_proxy\"\n                \x7d\n              \x7d\n            \x7d,\n            \"/\x7bproxy+\x7d\": \x7b\n              \"x-amazon-apigateway-any-method\": \x7b\n                \"produces\": [\n                  \"application/json\"\n                ],\n                \"parameters\": [\n                  \x7b\n                    \"name\": \"proxy\",\n                    \"in\": \"path\",\n      ",
  "              \"required\": true,\n                    \"type\": \"string\"\n                  \x7d,\n                  \x7b\n                    \"name\": \"X-My-X-Forwarded-For\",\n                    \"in\": \"header\",\n                    \"required\": false,\n                    \"type\": \"string\"\n                  \x7d\n                ],\n                \"responses\": \x7b\x7d,\n                \"x-amazon-apigatew",
  "ay-integration\": \x7b\n                  \"uri\": \"s/\x7bproxy\x7d\",\n                  \"responses\": \x7b\n                    \"default\": \x7b\n                      \"statusCode\": \"200\"\n                    \x7d\n                  \x7d,\n                  \"requestParameters\": \x7b\n                    \"integration.request.path.proxy\": \"method.request.path.proxy\",\n                    \"integration.request.h",
  "eader.X-Forwarded-For\": \"method.request.header.X-My-X-Forwarded-For\"\n                  \x7d,\n                  \"passthroughBehavior\": \"when_no_match\",\n                  \"httpMethod\": \"ANY\",\n                  \"cacheNamespace\": \"irx7tm\",\n                  \"cacheKeyParameters\": [\n                    \"method.request.path.proxy\"\n                  ],\n                  \"type\": \"http_proxy\"\n                \x7d\n              \x7d\n            \x7d\n          \x7d\n        \x7d\n        "]

/-- Images of `sChunks2` after substituting the version date `2020-01-01T00:00:00Z`. -/
def sChunks3 : List String := [
  "\n        \x7b\n          \"swagger\": \"2.0\",\n          \"info\": \x7b\n            \"version\": \"2020-01-01T00:00:00Z\",\n            \"title\": \"fireprox_x\"\n          \x7d,\n          \"basePath\": \"/\",\n          \"schemes\": [\n            \"https\"\n          ],\n          \"paths\": \x7b\n            \"/\": \x7b\n              \"get\": \x7b\n                \"parameters\": [\n                  \x7b\n                    \"name\": \"proxy",
  "\",\n                    \"in\": \"path\",\n                    \"required\": true,\n                    \"type\": \"string\"\n                  \x7d,\n                  \x7b\n                    \"name\": \"X-My-X-Forwarded-For\",\n                    \"in\": \"header\",\n                    \"required\": false,\n                    \"type\": \"string\"\n                  \x7d\n                ],\n                \"respons",
  "es\": \x7b\x7d,\n                \"x-amazon-apigateway-integration\": \x7b\n                  \"uri\": \"s/\",\n                  \"responses\": \x7b\n                    \"default\": \x7b\n                      \"statusCode\": \"200\"\n                    \x7d\n                  \x7d,\n                  \"requestParameters\": \x7b\n                    \"integration.request.path.proxy\": \"method.request.path.proxy\",\n      ",
  "              \"integration.request.header.X-Forwarded-For\": \"method.request.header.X-My-X-Forwarded-For\"\n                  \x7d,\n                  \"passthroughBehavior\": \"when_no_match\",\n                  \"httpMethod\": \"ANY\",\n                  \"cacheNamespace\": \"irx7tm\",\n                  \"cacheKeyParameters\": [\n                    \"method.request.path.proxy\"\n                  ],\n",
  "                  \"type\": \"http_proxy\"\n                \x7d\n              \x7d\n            \x7d,\n            \"/\x7bproxy+\x7d\": \x7b\n              \"x-amazon-apigateway-any-method\": \x7b\n                \"produces\": [\n                  \"application/json\"\n                ],\n                \"parameters\": [\n                  \x7b\n                    \"name\": \"proxy\",\n                    \"in\": \"path\",\n      ",
  "              \"required\": true,\n                    \"type\": \"string\"\n                  \x7d,\n                  \x7b\n                    \"name\": \"X-My-X-Forwarded-For\",\n                    \"in\": \"header\",\n                    \"required\": false,\n                    \"type\": \"string\"\n                  \x7d\n                ],\n                \"responses\": \x7b\x7d,\n                \"x-amazon-apigatew",
  "ay-integration\": \x7b\n                  \"uri\": \"s/\x7bproxy\x7d\",\n                  \"responses\": \x7b\n                    \"default\": \x7b\n                      \"statusCode\": \"200\"\n                    \x7d\n                  \x7d,\n                  \"requestParameters\": \x7b\n                    \"integration.request.path.proxy\": \"method.request.path.proxy\",\n                    \"integration.request.h",
  "eader.X-Forwarded-For\": \"method.request.header.X-My-X-Forwarded-For\"\n                  \x7d,\n                  \"passthroughBehavior\": \"when_no_match\",\n                  \"httpMethod\": \"ANY\",\n                  \"cacheNamespace\": \"irx7tm\",\n                  \"cacheKeyParameters\": [\n                    \"method.request.path.proxy\"\n                  ],\n                  \"type\": \"http_proxy\"\n                \x7d\n              \x7d\n            \x7d\n          \x7d\n        \x7d\n        "]

/-- Removal of the wildcard suffix, modelled from the spec's words
("the resulting URI (with the wildcard suffix removed)"): drop a trailing
`/{proxy}` if present.  This is the spec-side comparator for update;
the source instead calls `.replace('/{proxy}', '')`, which removes every
occurrence. -/
def specRemoveWildcardSuffix (uri : String) : String :=
  if ("/\x7bproxy\x7d".data).isSuffixOf uri.data then
    ⟨uri.data.take (uri.data.length - ("/\x7bproxy\x7d".data).length)⟩
  else uri

/-- Client on which the patch response URI contains `/{proxy}` in the
middle rather than as a suffix. -/
def c1cex : Client :=
  { getRestApis := Except.ok []
    getResources := fun _ => Except.ok [⟨"r1", "/\x7bproxy+\x7d"⟩]
    getIntegrationUri := fun _ _ => Except.ok ""
    updateIntegration := fun _ _ _ => Except.ok "http://a/\x7bproxy\x7d/b"
    deleteRestApi := fun _ => Except.ok () }

/-- Well-behaved client whose patch call echoes the requested wildcard URI. -/
def c1wit : Client :=
  { getRestApis := Except.ok []
    getResources := fun _ => Except.ok [⟨"r1", "/\x7bproxy+\x7d"⟩]
    getIntegrationUri := fun _ _ => Except.ok ""
    updateIntegration := fun _ _ v => Except.ok v
    deleteRestApi := fun _ => Except.ok () }

/-- Client on which every call succeeds trivially. -/
def c3client : Client :=
  { getRestApis := Except.ok []
    getResources := fun _ => Except.ok []
    getIntegrationUri := fun _ _ => Except.ok ""
    updateIntegration := fun _ _ _ => Except.ok ""
    deleteRestApi := fun _ => Except.ok () }

/-- Client listing one gateway `abc` with a wildcard resource. -/
def c5client : Client :=
  { getRestApis := Except.ok [⟨"2021-01-01", "abc", "gw"⟩]
    getResources := fun _ => Except.ok [⟨"r1", "/\x7bproxy+\x7d"⟩]
    getIntegrationUri := fun _ _ => Except.ok "http://backend/\x7bproxy\x7d"
    updateIntegration := fun _ _ _ => Except.ok ""
    deleteRestApi := fun _ => Except.ok () }

/-- Client listing two gateways: `aaa` has no wildcard resource (so its
integration lookup raises), `bbb` has one. -/
def c10client : Client :=
  { getRestApis := Except.ok [⟨"2021", "aaa", "alpha"⟩, ⟨"2022", "bbb", "beta"⟩]
    getResources := fun a =>
      if a = "aaa" then Except.ok [⟨"r0", "/"⟩]
      else Except.ok [⟨"r2", "/\x7bproxy+\x7d"⟩]
    getIntegrationUri := fun _ rid =>
      if rid = some "r2" then Except.ok "http://backend/\x7bproxy\x7d"
      else Except.error (PyErr.otherError "ParamValidationError")
    updateIntegration := fun _ _ _ => Except.ok ""
    deleteRestApi := fun _ => Except.ok () }

/-- The line list prints for gateway `bbb` of `c10client`. -/
def c10LineB : String :=
  "[2022] (bbb) beta: https://bbb.execute-api.us-east-1.amazonaws.com/fireprox/ => http://backend/"

/-- Oracle for `tldextract` at `https://example.com`. -/
def exDom : String → String := fun _ => "example"

/-- Oracle for `tldextract` at the degenerate URL `s`. -/
def sDom : String → String := fun _ => "x"

/-- A fixed rendering timestamp. -/
def verStamp : String := "2020-01-01T00:00:00Z"

/-- The document rendered for `https://example.com/` at `verStamp`. -/
def exDoc : String := sconcat eChunks3

/-- The document rendered for the URL `s` at `verStamp`. -/
def sDoc : String := sconcat sChunks3

theorem isPrefixOf_length_le {p a : List Char} (h : p.isPrefixOf a = true) :
    p.length ≤ a.length :=
  (List.isPrefixOf_iff_prefix.mp h).length_le

theorem isPrefixOf_append_left {p a : List Char} (b : List Char)
    (h : p.isPrefixOf a = true) : p.isPrefixOf (a ++ b) = true :=
  List.isPrefixOf_iff_prefix.mpr ((List.isPrefixOf_iff_prefix.mp h).trans (a.prefix_append b))

theorem isPrefixOf_of_append {p a b : List Char} (hl : p.length ≤ a.length)
    (h : p.isPrefixOf (a ++ b) = true) : p.isPrefixOf a = true := by
  have hp := List.isPrefixOf_iff_prefix.mp h
  have hq : p = (a ++ b).take p.length := List.prefix_iff_eq_take.mp hp
  have ht : (a ++ b).take p.length = a.take p.length :=
    List.take_append_of_le_length hl
  refine List.isPrefixOf_iff_prefix.mpr ?_
  rw [hq, ht]
  exact List.take_prefix _ _

theorem hnc_shift {pat l2 : List Char} {c : Char} {t : List Char}
    (hnc : ∀ k, k < (c :: t).length → pat.isPrefixOf (List.drop k (c :: t) ++ l2) = true →
      pat.length + k ≤ (c :: t).length) :
    ∀ k, k < t.length → pat.isPrefixOf (List.drop k t ++ l2) = true →
      pat.length + k ≤ t.length := by
  intro k hk hpre
  have h1 : k + 1 < (c :: t).length := by simpa using Nat.succ_lt_succ hk
  have h3 := hnc (k + 1) h1 hpre
  have h4 : pat.length + (k + 1) ≤ t.length + 1 := by simpa using h3
  omega

theorem replL_append (pat rep l2 : List Char) :
    ∀ (l1 : List Char) (skip : Nat), skip ≤ l1.length →
    (∀ k, k < l1.length → pat.isPrefixOf (l1.drop k ++ l2) = true →
      pat.length + k ≤ l1.length) →
    replL pat rep skip (l1 ++ l2) = replL pat rep skip l1 ++ replL pat rep 0 l2 := by
  intro l1
  induction l1 with
  | nil =>
    intro skip hskip _
    have h0 : skip = 0 := Nat.le_zero.mp hskip
    subst h0
    simp [replL]
  | cons c t ih =>
    intro skip hskip hnc
    match skip with
    | s + 1 =>
      have hs : s ≤ t.length := Nat.lt_succ_iff.mp (Nat.lt_of_succ_le hskip)
      show replL pat rep (s + 1) (c :: (t ++ l2)) = replL pat rep (s + 1) (c :: t) ++ replL pat rep 0 l2
      rw [show replL pat rep (s + 1) (c :: (t ++ l2)) = replL pat rep s (t ++ l2) from rfl,
          show replL pat rep (s + 1) (c :: t) = replL pat rep s t from rfl]
      exact ih s hs (hnc_shift hnc)
    | 0 =>
      show replL pat rep 0 (c :: (t ++ l2)) = replL pat rep 0 (c :: t) ++ replL pat rep 0 l2
      by_cases hm : pat.isPrefixOf (c :: (t ++ l2)) = true
      · have hlen : pat.length ≤ t.length + 1 := by
          have := hnc 0 (Nat.succ_pos _) (by simpa using hm)
          simpa using this
        have hm' : pat.isPrefixOf (c :: t) = true := by
          have : pat.isPrefixOf ((c :: t) ++ l2) = true := by simpa using hm
          exact isPrefixOf_of_append (by simpa using hlen) this
        rw [show replL pat rep 0 (c :: (t ++ l2)) =
              (if pat.isPrefixOf (c :: (t ++ l2)) then
                rep ++ replL pat rep (pat.length - 1) (t ++ l2)
              else c :: replL pat rep 0 (t ++ l2)) from rfl,
            show replL pat rep 0 (c :: t) =
              (if pat.isPrefixOf (c :: t) then rep ++ replL pat rep (pat.length - 1) t
              else c :: replL pat rep 0 t) from rfl,
            if_pos hm, if_pos hm']
        have hrec := ih (pat.length - 1) (by omega) (hnc_shift hnc)
        rw [hrec, List.append_assoc]
      · have hm' : ¬ pat.isPrefixOf (c :: t) = true := by
          intro hcontra
          exact hm (by
            have := isPrefixOf_append_left l2 hcontra
            simpa using this)
        rw [show replL pat rep 0 (c :: (t ++ l2)) =
              (if pat.isPrefixOf (c :: (t ++ l2)) then
                rep ++ replL pat rep (pat.length - 1) (t ++ l2)
              else c :: replL pat rep 0 (t ++ l2)) from rfl,
            show replL pat rep 0 (c :: t) =
              (if pat.isPrefixOf (c :: t) then rep ++ replL pat rep (pat.length - 1) t
              else c :: replL pat rep 0 t) from rfl,
            if_neg hm, if_neg hm']
        have hrec := ih 0 (Nat.zero_le _) (hnc_shift hnc)
        rw [hrec]
        rfl

theorem countL_append (pat l2 : List Char) :
    ∀ (l1 : List Char) (skip : Nat), skip ≤ l1.length →
    (∀ k, k < l1.length → pat.isPrefixOf (l1.drop k ++ l2) = true →
      pat.length + k ≤ l1.length) →
    countL pat skip (l1 ++ l2) = countL pat skip l1 + countL pat 0 l2 := by
  intro l1
  induction l1 with
  | nil =>
    intro skip hskip _
    have h0 : skip = 0 := Nat.le_zero.mp hskip
    subst h0
    simp [countL]
  | cons c t ih =>
    intro skip hskip hnc
    match skip with
    | s + 1 =>
      have hs : s ≤ t.length := Nat.lt_succ_iff.mp (Nat.lt_of_succ_le hskip)
      show countL pat s (t ++ l2) = countL pat s t + countL pat 0 l2
      exact ih s hs (hnc_shift hnc)
    | 0 =>
      show countL pat 0 (c :: (t ++ l2)) = countL pat 0 (c :: t) + countL pat 0 l2
      by_cases hm : pat.isPrefixOf (c :: (t ++ l2)) = true
      · have hlen : pat.length ≤ t.length + 1 := by
          have := hnc 0 (Nat.succ_pos _) (by simpa using hm)
          simpa using this
        have hm' : pat.isPrefixOf (c :: t) = true := by
          have : pat.isPrefixOf ((c :: t) ++ l2) = true := by simpa using hm
          exact isPrefixOf_of_append (by simpa using hlen) this
        rw [show countL pat 0 (c :: (t ++ l2)) =
              (if pat.isPrefixOf (c :: (t ++ l2)) then 1 + countL pat (pat.length - 1) (t ++ l2)
              else countL pat 0 (t ++ l2)) from rfl,
            show countL pat 0 (c :: t) =
              (if pat.isPrefixOf (c :: t) then 1 + countL pat (pat.length - 1) t
              else countL pat 0 t) from rfl,
            if_pos hm, if_pos hm']
        have hrec := ih (pat.length - 1) (by omega) (hnc_shift hnc)
        rw [hrec]
        omega
      · have hm' : ¬ pat.isPrefixOf (c :: t) = true := by
          intro hcontra
          exact hm (by
            have := isPrefixOf_append_left l2 hcontra
            simpa using this)
        rw [show countL pat 0 (c :: (t ++ l2)) =
              (if pat.isPrefixOf (c :: (t ++ l2)) then 1 + countL pat (pat.length - 1) (t ++ l2)
              else countL pat 0 (t ++ l2)) from rfl,
            show countL pat 0 (c :: t) =
              (if pat.isPrefixOf (c :: t) then 1 + countL pat (pat.length - 1) t
              else countL pat 0 t) from rfl,
            if_neg hm, if_neg hm']
        exact ih 0 (Nat.zero_le _) (hnc_shift hnc)

theorem hnc_of_window {pat c l2 : List Char}
    (hw : ∀ k, k < c.length → c.length < pat.length + k →
      pat.isPrefixOf (c.drop k ++ l2) = false) :
    ∀ k, k < c.length → pat.isPrefixOf (c.drop k ++ l2) = true →
      pat.length + k ≤ c.length := by
  intro k hk hpre
  by_cases hle : pat.length + k ≤ c.length
  · exact hle
  · have hlt : c.length < pat.length + k := Nat.lt_of_not_le hle
    simp [hw k hk hlt] at hpre

theorem replL_joinL (pat rep : List Char) :
    ∀ (cs : List (List Char)), bOkCore pat cs →
    replL pat rep 0 (joinL cs) = joinL (cs.map (replL pat rep 0)) := by
  intro cs
  induction cs with
  | nil => intro _; rfl
  | cons c rest ih =>
    intro hb
    show replL pat rep 0 (c ++ joinL rest) = replL pat rep 0 c ++ joinL (rest.map _)
    rw [replL_append pat rep (joinL rest) c 0 (Nat.zero_le _) (hnc_of_window hb.1), ih hb.2]

theorem countL_joinL (pat : List Char) :
    ∀ (cs : List (List Char)), bOkCore pat cs →
    countL pat 0 (joinL cs) = sumN (cs.map (countL pat 0)) := by
  intro cs
  induction cs with
  | nil => intro _; rfl
  | cons c rest ih =>
    intro hb
    show countL pat 0 (c ++ joinL rest) = countL pat 0 c + sumN (rest.map _)
    rw [countL_append pat (joinL rest) c 0 (Nat.zero_le _) (hnc_of_window hb.1), ih hb.2]

theorem sconcat_data : ∀ (ss : List String),
    (sconcat ss).data = joinL (ss.map String.data) := by
  intro ss
  induction ss with
  | nil => rfl
  | cons s rest ih =>
    show (s ++ sconcat rest).data = s.data ++ joinL (rest.map String.data)
    rw [← ih]
    rfl

theorem string_data_inj {a b : String} (h : a.data = b.data) : a = b := by
  cases a with
  | mk la =>
    cases b with
    | mk lb => exact congrArg String.mk h

theorem strip_slash_eq (v : String) : stripUrl (v ++ "/") = some v := by
  cases v with
  | mk l =>
    show (stripUrlL ((⟨l⟩ : String) ++ "/").data).map String.mk = some ⟨l⟩
    have hd : ((⟨l⟩ : String) ++ "/").data = l ++ ['/'] := rfl
    rw [hd]
    unfold stripUrlL
    rw [List.getLast?_concat]
    simp

theorem string_ne_empty_data {u : String} (h : u ≠ "") : u.data ≠ [] := by
  intro he
  exact h (string_data_inj (by rw [he]))

theorem strip_noslash_eq (u : String) (h : u ≠ "") (h2 : u.data.getLast? ≠ some '/') :
    stripUrl u = some u := by
  cases u with
  | mk l =>
    have hl : l ≠ [] := string_ne_empty_data h
    show (stripUrlL l).map String.mk = some ⟨l⟩
    unfold stripUrlL
    match hg : l.getLast? with
    | none => exact absurd (List.getLast?_eq_none_iff.mp hg) hl
    | some c =>
      have hc : c ≠ '/' := by
        intro he
        exact h2 (by rw [hg, he])
      simp [hc]

theorem truthy_of_ne {s : String} (h : s ≠ "") : truthy (some s) = true := by
  cases s with
  | mk l =>
    cases l with
    | nil => exact absurd rfl h
    | cons a t => rfl

theorem truthy_slash (v : String) : truthy (some (v ++ "/")) = true := by
  cases v with
  | mk l =>
    cases l with
    | nil => rfl
    | cons a t => rfl

/-- C3: the spec says update requires both a gateway ID and a URL and
fails with a usage error when either is missing; the source's guard
`if not any([api_id, url])` fires only when both are missing, and with a
gateway ID but no URL the code crashes at `url[-1]` with an uncaught
TypeError instead of printing the help text — contradicting the intent
documented by its own error message.  The first conjunct evaluates the
failing input, the second shows the both-missing case does raise the
usage error. -/
theorem c3_code_bug :
    update_api "HELP" c3client (some "abc123") none =
      ([], Except.error (PyErr.otherError "TypeError: NoneType is not subscriptable"))
  ∧ update_api "HELP" c3client none none =
      (["HELP"], Except.error (PyErr.systemExit "Please provide a valid API ID and URL end-point")) :=
  ⟨by decide, by decide⟩

/-- C4: with keys and a session token but no profile, `load_creds` stores
the token under the misspelled dictionary key `aws_sessoin_token`
(source line 72), so it is not passed to the session as the AWS session
token `aws_session_token`. -/
theorem c4_code_bug :
    load_creds none (some "AKIA") (some "SECRET") (some "TOKEN") "us-east-1" =
      CredResolution.sessionWith
        [("aws_access_key_id", "AKIA"), ("aws_secret_access_key", "SECRET"),
          ("aws_sessoin_token", "TOKEN"), ("region_name", "us-east-1")]
  ∧ "aws_session_token" ∉
      ([("aws_access_key_id", "AKIA"), ("aws_secret_access_key", "SECRET"),
        ("aws_sessoin_token", "TOKEN"), ("region_name", "us-east-1")].map Prod.fst) :=
  ⟨by decide, by decide⟩

/-- C9: credential resolution order — with no profile and no keys the
instance profile is attempted; a profile takes precedence over explicit
keys; keys are used only without a profile; otherwise a usage error. -/
theorem c9_creds (p a s t : Option String) (r : String) :
    (truthy p = false → truthy a = false → truthy s = false →
      load_creds p a s t r = CredResolution.instanceProfile)
  ∧ (truthy p = true →
      load_creds p a s t r =
        CredResolution.sessionWith [("profile_name", pyStr p), ("region_name", r)])
  ∧ (truthy p = false → truthy a = true → truthy s = true →
      load_creds p a s t r =
        CredResolution.sessionWith
          ([("aws_access_key_id", pyStr a), ("aws_secret_access_key", pyStr s)] ++
            (if truthy t = true then [("aws_sessoin_token", pyStr t)] else []) ++
            [("region_name", r)]))
  ∧ (truthy p = false → (truthy a = false ∨ truthy s = false) →
      (truthy a = true ∨ truthy s = true) →
      load_creds p a s t r =
        CredResolution.usageError "Please configure a profile or provice access keys") := by
  refine ⟨?_, ?_, ?_, ?_⟩
  · intro h1 h2 h3
    simp [load_creds, h1, h2, h3]
  · intro h1
    simp [load_creds, h1]
  · intro h1 h2 h3
    simp [load_creds, h1, h2, h3]
  · intro h1 h2 h3
    rcases h2 with h2 | h2 <;> rcases h3 with h3 | h3 <;> simp_all [load_creds]

/-- C9 witness: with both a profile and explicit keys, the profile wins. -/
theorem c9_witness :
    load_creds (some "prof") (some "AK") (some "SK") none "us-east-1" =
      CredResolution.sessionWith [("profile_name", "prof"), ("region_name", "us-east-1")] :=
  (c9_creds (some "prof") (some "AK") (some "SK") none "us-east-1").2.1 (by decide)

/-- C6: a URL ending in a slash has exactly that one trailing slash
removed, and a non-empty URL without a trailing slash is used unchanged,
both in the definition-document generator and in update (both call the
same strip, so the generator and update are insensitive to a trailysh
slash). -/
theorem c6_strip :
    (∀ v : String, stripUrl (v ++ "/") = some v)
  ∧ (∀ u : String, u ≠ "" → u.data.getLast? ≠ some '/' → stripUrl u = some u)
  ∧ (∀ (d : String → String) (vd v : String), v ≠ "" → v.data.getLast? ≠ some '/' →
      get_template d vd (v ++ "/") = get_template d vd v)
  ∧ (∀ (help : String) (c : Client) (i : Option String) (v : String),
      v ≠ "" → v.data.getLast? ≠ some '/' →
      update_api help c i (some (v ++ "/")) = update_api help c i (some v)) := by
  refine ⟨strip_slash_eq, strip_noslash_eq, ?_, ?_⟩
  · intro d vd v hne hnl
    unfold get_template
    rw [strip_slash_eq v, strip_noslash_eq v hne hnl]
  · intro help c i v hne hnl
    unfold update_api
    rw [truthy_slash v, truthy_of_ne hne]
    dsimp only
    rw [strip_slash_eq v, strip_noslash_eq v hne hnl]

/-- C6 witness: concrete instance of the strip behaviour. -/
theorem c6_witness :
    stripUrl "http://x/" = some "http://x" ∧ stripUrl "http://x" = some "http://x" :=
  ⟨c6_strip.1 "http://x",
    c6_strip.2.1 "http://x" (by decide) (by decide)⟩

/-- C8: the title is `fireprox_` followed by the registrable domain the
tldextract collaborator extracts from the stripped URL; in particular for
`https://example.com/` (domain `example`) it is `fireprox_example`. -/
theorem c8_title (d : String → String) (u u2 : String) (hs : stripUrl u = some u2) :
    titleOf d u = some ("fireprox_" ++ d u2)
  ∧ (d "https://example.com" = "example" →
      titleOf d "https://example.com/" = some "fireprox_example") := by
  constructor
  · unfold titleOf
    rw [hs]
    rfl
  · intro hd
    unfold titleOf
    rw [show stripUrl "https://example.com/" = some "https://example.com" from by decide]
    show some (fireproxTitle d "https://example.com") = some "fireprox_example"
    unfold fireproxTitle
    rw [hd]
    rfl

/-- C8 witness: the concrete derived title for `https://example.com/`. -/
theorem c8_witness :
    titleOf exDom "https://example.com/" = some "fireprox_example" :=
  (c8_title exDom "https://example.com/" "https://example.com" (by decide)).2 rfl

theorem list_api_ok {help region : String} {c : Client} {d : Option String}
    {items : List ApiItem} (h : c.getRestApis = Except.ok items) :
    list_api help region c d = (listOut (itemOut help region c d) items, Except.ok items) := by
  unfold list_api
  rw [h]

theorem delete_api_eval {help region : String} {c : Client} {a : String}
    {items : List ApiItem} (ha : a ≠ "") (hl : c.getRestApis = Except.ok items) :
    delete_api help region c (some a) =
      (match items.find? (fun item => item.id = a) with
        | some _ =>
          (match c.deleteRestApi a with
            | Except.error (PyErr.clientError m) =>
              (listOut (itemOut help region c (some a)) items ++ [help],
                Except.error (PyErr.systemExit m))
            | Except.error e =>
              (listOut (itemOut help region c (some a)) items, Except.error e)
            | Except.ok _ =>
              (listOut (itemOut help region c (some a)) items, Except.ok true))
        | none => (listOut (itemOut help region c (some a)) items, Except.ok false)) := by
  unfold delete_api
  rw [truthy_of_ne ha, list_api_ok hl]
  rfl

theorem mem_listOut {f : ApiItem → List String} {s : String} :
    ∀ {items : List ApiItem} {it : ApiItem}, it ∈ items → s ∈ f it → s ∈ listOut f items := by
  intro items
  induction items with
  | nil => intro it h _; exact absurd h (List.not_mem_nil it)
  | cons x rest ih =>
    intro it hmem hs
    rcases List.mem_cons.mp hmem with h | h
    · subst h; exact List.mem_append_left _ hs
    · exact List.mem_append_right _ (ih h hs)

/-- C1 counterexample: the source compares `response['uri'].replace('/{proxy}', '')`
— removal of every occurrence — with the stripped URL, not removal of a
wildcard suffix.  On a patch response whose URI contains `/{proxy}` in the
middle, update returns true although the URI with the wildcard suffix
removed differs from the requested URL. -/
theorem c1_counterexample :
    ¬ (∀ (c : Client) (i u u2 rid uri : String),
        stripUrl u = some u2 →
        (get_resource "HELP" c (some i)).2 = Except.ok (some rid) →
        c.updateIntegration i rid (u2 ++ "/\x7bproxy\x7d") = Except.ok uri →
        ((update_api "HELP" c (some i) (some u)).2 = Except.ok true ↔
          specRemoveWildcardSuffix uri = u)) := by
  intro h
  have h1 := (h c1cex "api1" "http://a/b" "http://a/b" "r1" "http://a/\x7bproxy\x7d/b"
      (by decide) (by decide) (by decide)).mp (by decide)
  exact absurd h1 (by decide)

/-- C1 amended: on the path where the wildcard resource lookup returned a
truthy (non-empty) resource id, update returns true iff the URI returned
by the patch call, with every occurrence of `/{proxy}` removed, equals
the requested URL after trailing-slash stripping (a falsy resource id
takes the `Unable to update, no valid resource` error path instead,
per `if resource_id:` on source line 239). -/
theorem c1_amended (help : String) (c : Client) (i u u2 rid uri : String)
    (hi : truthy (some i) = true)
    (hs : stripUrl u = some u2)
    (hr : get_resource help c (some i) = ([], Except.ok (some rid)))
    (hrid : rid ≠ "")
    (hu : c.updateIntegration i rid (u2 ++ "/\x7bproxy\x7d") = Except.ok uri) :
    (update_api help c (some i) (some u)).2 = Except.ok true ↔
      replaceAll uri "/\x7bproxy\x7d" "" = u2 := by
  simp only [update_api, hi, hs, hr, hu, Bool.true_or, pyStr, truthy_of_ne hrid]
  simp [beq_iff_eq]

/-- C1 witness: a well-behaved patch response makes update succeed. -/
theorem c1_witness :
    (update_api "H" c1wit (some "api1") (some "http://x/")).2 = Except.ok true :=
  (c1_amended "H" c1wit "api1" "http://x/" "http://x" "r1" "http://x/\x7bproxy\x7d"
    (by decide) (by decide) (by decide) (by decide) (by decide)).mpr (by decide)

/-- C5: delete returns true iff the given id appears in the listing
fetched just before the delete call, and when it is absent the result is
false independently of the client's delete endpoint (no deletion request
is consulted). -/
theorem c5_delete (help region : String) (c : Client) (a : String) (items : List ApiItem)
    (ha : a ≠ "")
    (hl : c.getRestApis = Except.ok items)
    (hd : c.deleteRestApi a = Except.ok ()) :
    ((delete_api help region c (some a)).2 = Except.ok true ↔ ∃ it ∈ items, it.id = a)
  ∧ ((∀ it ∈ items, it.id ≠ a) → ∀ f,
      (delete_api help region { c with deleteRestApi := f } (some a)).2 = Except.ok false) := by
  constructor
  · rw [delete_api_eval ha hl]
    cases hf : items.find? (fun item => item.id = a) with
    | none =>
      simp only [hf]
      constructor
      · intro hcontra
        exact absurd hcontra (by simp)
      · rintro ⟨it, hmem, hid⟩
        have hno := List.find?_eq_none.mp hf it hmem
        simp at hno
        exact (hno hid).elim
    | some it0 =>
      simp only [hf]
      rw [hd]
      constructor
      · intro _
        refine ⟨it0, List.mem_of_find?_eq_some hf, ?_⟩
        have := List.find?_some hf
        simpa using this
      · intro _
        rfl
  · intro hnone f
    rw [delete_api_eval ha (show ({ c with deleteRestApi := f } : Client).getRestApis =
      Except.ok items from hl)]
    have hf : items.find? (fun item => item.id = a) = none := by
      apply List.find?_eq_none.mpr
      intro it hmem
      simp
      exact hnone it hmem
    simp only [hf]

/-- C5 witness: deleting a listed gateway succeeds. -/
theorem c5_witness :
    (delete_api "HELP" "us-east-1" c5client (some "abc")).2 = Except.ok true :=
  ((c5_delete "HELP" "us-east-1" c5client "abc" [⟨"2021-01-01", "abc", "gw"⟩]
      (by decide) rfl rfl).1).mpr ⟨⟨"2021-01-01", "abc", "gw"⟩, by simp, rfl⟩

/-- C10 counterexample: a listed gateway without a wildcard resource gets
no printed line at all (its integration lookup raises and the bare except
skips it), although its id differs from the `deleted_api_id` argument. -/
theorem c10_counterexample :
    ¬ (∀ (c : Client) (d : Option String) (items : List ApiItem) (it : ApiItem),
        c.getRestApis = Except.ok items → it ∈ items → d ≠ some it.id →
        ∃ s ∈ (list_api "HELP" "us-east-1" c d).1, 1 ≤ countSub s it.id) := by
  intro h
  obtain ⟨s, hsmem, hcount⟩ :=
    h c10client none [⟨"2021", "aaa", "alpha"⟩, ⟨"2022", "bbb", "beta"⟩]
      ⟨"2021", "aaa", "alpha"⟩ rfl (by simp) (by decide)
  rw [show (list_api "HELP" "us-east-1" c10client none).1 = [c10LineB] from by decide] at hsmem
  have hs : s = c10LineB := by simpa using hsmem
  subst hs
  rw [show countSub c10LineB "aaa" = 0 from by decide] at hcount
  omega

/-- C10 amended: the returned list always contains every item of the
provider listing (so delete's existence check still finds its target, and
a suppressed item is returned even though unprinted); a formatted line is
printed for an item exactly when its id differs from `deleted_api_id` and
its integration lookup succeeds. -/
theorem c10_amended :
    (∀ (help region : String) (c : Client) (d : Option String) (items : List ApiItem),
        c.getRestApis = Except.ok items →
        (list_api help region c d).2 = Except.ok items)
  ∧ (∀ (help region : String) (c : Client) (d : Option String) (items : List ApiItem)
        (it : ApiItem) (uri : String),
        c.getRestApis = Except.ok items → it ∈ items →
        get_integration help c (some it.id) = ([], Except.ok uri) →
        d ≠ some it.id →
        fmtLine region it uri ∈ (list_api help region c d).1)
  ∧ (∀ (help region : String) (c : Client) (a : String) (items : List ApiItem) (it : ApiItem),
        a ≠ "" → c.getRestApis = Except.ok items → it ∈ items → it.id = a →
        c.deleteRestApi a = Except.ok () →
        (delete_api help region c (some a)).2 = Except.ok true) := by
  refine ⟨?_, ?_, ?_⟩
  · intro help region c d items h
    rw [list_api_ok h]
  · intro help region c d items it uri hg hmem hint hd
    rw [list_api_ok hg]
    apply mem_listOut hmem
    unfold itemOut
    rw [hint]
    dsimp only
    rw [if_neg hd]
    simp
  · intro help region c a items it ha hg hmem hid hdel
    rw [delete_api_eval ha hg]
    cases hf : items.find? (fun item => item.id = a) with
    | none =>
      have hno := List.find?_eq_none.mp hf it hmem
      simp at hno
      exact (hno hid).elim
    | some it0 =>
      simp only [hf]
      rw [hdel]

/-- C10 witness: gateway `bbb` of `c10client` has a successful
integration lookup and its line is printed. -/
theorem c10_witness :
    fmtLine "us-east-1" ⟨"2022", "bbb", "beta"⟩ "http://backend/\x7bproxy\x7d" ∈
      (list_api "HELP" "us-east-1" c10client none).1 :=
  c10_amended.2.1 "HELP" "us-east-1" c10client none
    [⟨"2021", "aaa", "alpha"⟩, ⟨"2022", "bbb", "beta"⟩] ⟨"2022", "bbb", "beta"⟩
    "http://backend/\x7bproxy\x7d" rfl (by simp) (by decide) (by decide)

theorem c7_b_url : bOkCore urlPh.data tChunksData := by decide

theorem c7_cnt_url : sumN (tChunksData.map (countL urlPh.data 0)) = 2 := by decide

theorem c7_b_root : bOkCore rootUriSite.data tChunksData := by decide

theorem c7_cnt_root : sumN (tChunksData.map (countL rootUriSite.data 0)) = 1 := by decide

theorem c7_b_wild : bOkCore wildUriSite.data tChunksData := by decide

theorem c7_cnt_wild : sumN (tChunksData.map (countL wildUriSite.data 0)) = 1 := by decide

theorem c7_e_m1 :
    tChunksData.map (replL urlPh.data "https://example.com".data 0) =
      eChunks1.map String.data := by decide

theorem c7_e_b1 : bOkCore titlePh.data (eChunks1.map String.data) := by decide

theorem c7_e_m2 :
    (eChunks1.map String.data).map (replL titlePh.data "fireprox_example".data 0) =
      eChunks2.map String.data := by decide

theorem c7_e_b2 : bOkCore verPh.data (eChunks2.map String.data) := by decide

theorem c7_e_m3 :
    (eChunks2.map String.data).map (replL verPh.data verStamp.data 0) =
      eChunks3.map String.data := by decide

theorem c7_e_b3 : bOkCore "https://example.com".data (eChunks3.map String.data) := by decide

theorem c7_e_cnt :
    sumN ((eChunks3.map String.data).map (countL "https://example.com".data 0)) = 2 := by decide

theorem c7_s_m1 :
    tChunksData.map (replL urlPh.data "s".data 0) = sChunks1.map String.data := by decide

theorem c7_s_b1 : bOkCore titlePh.data (sChunks1.map String.data) := by decide

theorem c7_s_m2 :
    (sChunks1.map String.data).map (replL titlePh.data "fireprox_x".data 0) =
      sChunks2.map String.data := by decide

theorem c7_s_b2 : bOkCore verPh.data (sChunks2.map String.data) := by decide

theorem c7_s_m3 :
    (sChunks2.map String.data).map (replL verPh.data verStamp.data 0) =
      sChunks3.map String.data := by decide

theorem c7_s_b3 : bOkCore "s".data (sChunks3.map String.data) := by decide

theorem c7_s_cnt : sumN ((sChunks3.map String.data).map (countL "s".data 0)) = 57 := by decide

theorem c7_render_aux {u ttl ver : String} {cs1 cs2 cs3 : List String}
    (hbu : bOkCore urlPh.data tChunksData)
    (hm1 : tChunksData.map (replL urlPh.data u.data 0) = cs1.map String.data)
    (hb1 : bOkCore titlePh.data (cs1.map String.data))
    (hm2 : (cs1.map String.data).map (replL titlePh.data ttl.data 0) = cs2.map String.data)
    (hb2 : bOkCore verPh.data (cs2.map String.data))
    (hm3 : (cs2.map String.data).map (replL verPh.data ver.data 0) = cs3.map String.data) :
    replaceAll (replaceAll (replaceAll templateRaw urlPh u) titlePh ttl) verPh ver =
      sconcat cs3 := by
  apply string_data_inj
  have h0 : templateRaw.data = joinL tChunksData := sconcat_data tChunks
  have e1 : (replaceAll templateRaw urlPh u).data = joinL (cs1.map String.data) := by
    show replL urlPh.data u.data 0 templateRaw.data = joinL (cs1.map String.data)
    rw [h0, replL_joinL urlPh.data u.data tChunksData hbu, hm1]
  have e2 : (replaceAll (replaceAll templateRaw urlPh u) titlePh ttl).data =
      joinL (cs2.map String.data) := by
    show replL titlePh.data ttl.data 0 (replaceAll templateRaw urlPh u).data =
      joinL (cs2.map String.data)
    rw [e1, replL_joinL titlePh.data ttl.data (cs1.map String.data) hb1, hm2]
  show replL verPh.data ver.data 0
      (replaceAll (replaceAll templateRaw urlPh u) titlePh ttl).data = (sconcat cs3).data
  rw [e2, replL_joinL verPh.data ver.data (cs2.map String.data) hb2, hm3, sconcat_data cs3]

theorem c7_e_render : get_template exDom verStamp "https://example.com/" = some exDoc := by
  unfold get_template
  rw [show stripUrl "https://example.com/" = some "https://example.com" from by decide]
  dsimp only
  rw [show fireproxTitle exDom "https://example.com" = "fireprox_example" from rfl]
  exact congrArg some (c7_render_aux c7_b_url c7_e_m1 c7_e_b1 c7_e_m2 c7_e_b2 c7_e_m3)

theorem c7_s_render : get_template sDom verStamp "s" = some sDoc := by
  unfold get_template
  rw [show stripUrl "s" = some "s" from by decide]
  dsimp only
  rw [show fireproxTitle sDom "s" = "fireprox_x" from rfl]
  exact congrArg some (c7_render_aux c7_b_url c7_s_m1 c7_s_b1 c7_s_m2 c7_s_b2 c7_s_m3)

theorem c7_s_count : countSub sDoc "s" = 57 := by
  show countL "s".data 0 (sconcat sChunks3).data = 57
  rw [sconcat_data sChunks3, countL_joinL "s".data (sChunks3.map String.data) c7_s_b3, c7_s_cnt]

/-- C7 counterexample: the rendered document does not contain every
stripped URL exactly twice — for the degenerate URL `s` the rendered
document contains the stripped URL 57 times (the static template text
contains the letter `s` throughout). -/
theorem c7_counterexample :
    ¬ (∀ (d : String → String) (v u u2 doc : String),
        stripUrl u = some u2 → get_template d v u = some doc → countSub doc u2 = 2) := by
  intro h
  have hd := h sDom verStamp "s" "s" sDoc (by decide) c7_s_render
  rw [c7_s_count] at hd
  exact absurd hd (by decide)

/-- C7 amended: the template references the url placeholder exactly twice
— once in the root route's integration URI and once in the wildcard
route's — and the rendering substitutes the stripped URL there, so for a
URL whose text does not otherwise occur in the document (such as
`https://example.com/`) the rendered document contains the stripped URL
exactly twice; a URL whose text occurs elsewhere in the document appears
more often. -/
theorem c7_amended :
    countSub templateRaw urlPh = 2
  ∧ countSub templateRaw rootUriSite = 1
  ∧ countSub templateRaw wildUriSite = 1
  ∧ get_template exDom verStamp "https://example.com/" = some exDoc
  ∧ countSub exDoc "https://example.com" = 2 := by
  refine ⟨?_, ?_, ?_, c7_e_render, ?_⟩
  · show countL urlPh.data 0 templateRaw.data = 2
    rw [show templateRaw.data = joinL tChunksData from sconcat_data tChunks,
        countL_joinL urlPh.data tChunksData c7_b_url, c7_cnt_url]
  · show countL rootUriSite.data 0 templateRaw.data = 1
    rw [show templateRaw.data = joinL tChunksData from sconcat_data tChunks,
        countL_joinL rootUriSite.data tChunksData c7_b_root, c7_cnt_root]
  · show countL wildUriSite.data 0 templateRaw.data = 1
    rw [show templateRaw.data = joinL tChunksData from sconcat_data tChunks,
        countL_joinL wildUriSite.data tChunksData c7_b_wild, c7_cnt_wild]
  · show countL "https://example.com".data 0 exDoc.data = 2
    rw [show exDoc.data = joinL (eChunks3.map String.data) from sconcat_data eChunks3,
        countL_joinL "https://example.com".data (eChunks3.map String.data) c7_e_b3, c7_e_cnt]
